import Mathlib

/-!
Verification development for the route-optimizer repository.

The repository consists of a FastAPI backend (the Route Construction and
Assignment Engine described in the specification) and a Next.js frontend.
Only the frontend TypeScript sources are present under src/; the backend
engine (Route Builder, Feasibility Checker, Route Simulator, Scenario
Comparator, Cost Summarizer) is modelled here from the specification text.
Frontend components (MapView with decodePolyline, SettingsPanel vehicle
operations, the upload handler, RoutesList display formulas) are embedded
directly from the TypeScript sources.

Numbers are modelled as rationals; clock values are minutes from midnight.
-/

namespace RouteOpt

/-- Modelled from the spec: a coordinate in decimal degrees (section 3). -/
structure Coord where
  lat : ℚ
  lon : ℚ
deriving DecidableEq

/-- Delivery record, fields as in the frontend interface Delivery
(src/frontend/src/lib/api.ts) with defaults already applied by the upstream
CSV ingestion (demand default 1, service_time default 5). -/
structure Delivery where
  id : String
  latitude : ℚ
  longitude : ℚ
  demand : ℚ
  time_window_start : Option ℚ
  time_window_end : Option ℚ
  service_time : ℚ
  priority : ℤ
deriving DecidableEq

def Delivery.coord (d : Delivery) : Coord := ⟨d.latitude, d.longitude⟩

/-- Vehicle configuration, fields as in the frontend interface Vehicle
(src/frontend/src/lib/api.ts); speed_factor default 1 applied upstream. -/
structure Vehicle where
  id : String
  capacity : Option ℚ
  max_stops : Option ℕ
  start_time : ℚ
  end_time : ℚ
  speed_factor : ℚ
deriving DecidableEq

/-- Stop within a built route, fields as in the frontend interface RouteStop
(src/frontend/src/lib/api.ts). -/
structure RouteStop where
  sequence : ℕ
  delivery_id : String
  latitude : ℚ
  longitude : ℚ
  arrival_time : ℚ
  departure_time : ℚ
  cumulative_distance : ℚ
  cumulative_load : ℚ
deriving DecidableEq

/-- Route record, fields as in the frontend interface Route
(src/frontend/src/lib/api.ts). -/
structure Route where
  vehicle_id : String
  stops : List RouteStop
  total_distance : ℚ
  total_time : ℚ
  total_load : ℚ
deriving DecidableEq

/-- Modelled from the spec: the distance model computes great-circle
(haversine) distance in kilometers.  Haversine involves transcendental
functions, so the model abstracts it as a distance-function parameter;
concrete instantiations below use metrics realizable as great-circle
distances (points on the equator). -/
abbrev DistFn := Coord → Coord → ℚ

/-- Modelled from the spec: base travel speed constant, 30 km/h (section 4.1). -/
def baseSpeed : ℚ := 30

/-- Modelled from the spec: travel_time(distance, speed_factor) in minutes
= distance / (base_speed * speed_factor) * 60 (section 4.1). -/
def travel_time (d : ℚ) (sf : ℚ) : ℚ := d / (baseSpeed * sf) * 60

/-- Modelled from the spec: the optimization objective enum (section 6). -/
inductive Objective
  | minimize_distance
  | minimize_time
  | balance_routes
deriving DecidableEq

/-- Engine-internal state of one vehicle while its route is being built. -/
structure VehState where
  veh : Vehicle
  loc : Coord
  time : ℚ
  load : ℚ
  dist : ℚ
  stops : List RouteStop
  exhausted : Bool
deriving DecidableEq

/-- Modelled from the spec: initial builder state of a vehicle — at the
depot, at the vehicle's start_time, with zero load (section 4.3). -/
def initState (depot : Coord) (v : Vehicle) : VehState :=
  { veh := v, loc := depot, time := v.start_time, load := 0, dist := 0,
    stops := [], exhausted := false }

/-- Modelled from the spec: the Feasibility Checker (section 4.2) — capacity,
stop-count, time-window and vehicle-shift checks for appending a candidate
delivery to a route in progress. -/
def feasible (dist : DistFn) (depot : Coord) (vs : VehState) (d : Delivery) : Bool :=
  let capOk := match vs.veh.capacity with
    | none => true
    | some c => decide (vs.load + d.demand ≤ c)
  let stopsOk := match vs.veh.max_stops with
    | none => true
    | some m => decide (vs.stops.length < m)
  let travel := travel_time (dist vs.loc d.coord) vs.veh.speed_factor
  let arrival := vs.time + travel
  let effArrival := match d.time_window_start with
    | none => arrival
    | some ws => max arrival ws
  let windowOk := match d.time_window_end with
    | none => true
    | some we => decide (effArrival ≤ we)
  let departure := effArrival + d.service_time
  let returnT := travel_time (dist d.coord depot) vs.veh.speed_factor
  let shiftOk := decide (departure + returnT ≤ vs.veh.end_time)
  capOk && stopsOk && windowOk && shiftOk

/-- Modelled from the spec: the selection score of a candidate delivery
(section 4.3 step 2) — distance for minimize_distance and balance_routes,
travel time plus wait for minimize_time. -/
def selectionScore (dist : DistFn) (obj : Objective) (vs : VehState) (d : Delivery) : ℚ :=
  match obj with
  | .minimize_time =>
    let travel := travel_time (dist vs.loc d.coord) vs.veh.speed_factor
    let arrival := vs.time + travel
    let wait := match d.time_window_start with
      | none => 0
      | some ws => max 0 (ws - arrival)
    travel + wait
  | _ => dist vs.loc d.coord

/-- Modelled from the spec: strict preference between candidates — lower
score wins, ties broken by lower priority value then lexicographically
smaller id (section 4.3 step 3). -/
def isBetter (dist : DistFn) (obj : Objective) (vs : VehState) (d e : Delivery) : Bool :=
  let sd := selectionScore dist obj vs d
  let se := selectionScore dist obj vs e
  decide (sd < se) ||
    (decide (sd = se) &&
      (decide (d.priority < e.priority) ||
        (decide (d.priority = e.priority) && decide (d.id < e.id))))

/-- Fold selecting the best feasible candidate from the pool; the first
candidate encountered wins exact ties with later ones because replacement
requires strict preference. -/
def chooseBest (dist : DistFn) (obj : Objective) (depot : Coord) (vs : VehState) :
    Option Delivery → List Delivery → Option Delivery
  | best, [] => best
  | best, d :: rest =>
    if feasible dist depot vs d then
      match best with
      | none => chooseBest dist obj depot vs (some d) rest
      | some b =>
        chooseBest dist obj depot vs (some (if isBetter dist obj vs d b then d else b)) rest
    else chooseBest dist obj depot vs best rest

/-- Modelled from the spec: among all not-yet-assigned deliveries, the
feasible one with the best selection score (section 4.3 steps 1-3). -/
def selectNext (dist : DistFn) (obj : Objective) (depot : Coord)
    (vs : VehState) (pool : List Delivery) : Option Delivery :=
  chooseBest dist obj depot vs none pool

/-- Modelled from the spec: appending the winning delivery as the next Stop
and advancing current location, time and load (section 4.3 step 4 and the
Route Simulator forward pass, section 4.4). -/
def advance (dist : DistFn) (vs : VehState) (d : Delivery) : VehState :=
  let travel := travel_time (dist vs.loc d.coord) vs.veh.speed_factor
  let arrival := vs.time + travel
  let effArrival := match d.time_window_start with
    | none => arrival
    | some ws => max arrival ws
  let departure := effArrival + d.service_time
  let newDist := vs.dist + dist vs.loc d.coord
  let newLoad := vs.load + d.demand
  let stop : RouteStop :=
    { sequence := vs.stops.length + 1, delivery_id := d.id,
      latitude := d.latitude, longitude := d.longitude,
      arrival_time := effArrival, departure_time := departure,
      cumulative_distance := newDist, cumulative_load := newLoad }
  { vs with
    loc := d.coord, time := departure, load := newLoad,
    dist := newDist, stops := vs.stops ++ [stop] }

/-- Decomposition of the fleet around the first non-exhausted vehicle, in
input order. -/
def chooseFirstActive : List VehState → Option (List VehState × VehState × List VehState)
  | [] => none
  | vs :: rest =>
    if vs.exhausted then
      match chooseFirstActive rest with
      | none => none
      | some (pre, c, suf) => some (vs :: pre, c, suf)
    else some ([], vs, rest)

/-- Decomposition of the fleet around the non-exhausted vehicle with least
cumulative load, earliest in input order on ties (the round-robin-like
re-ranking of the balance_routes objective, section 4.3). -/
def chooseLeastLoad : List VehState → Option (List VehState × VehState × List VehState)
  | [] => none
  | vs :: rest =>
    match chooseLeastLoad rest with
    | none => if vs.exhausted then none else some ([], vs, rest)
    | some (pre, c, suf) =>
      if vs.exhausted then some (vs :: pre, c, suf)
      else if vs.load ≤ c.load then some ([], vs, rest)
      else some (vs :: pre, c, suf)

/-- Modelled from the spec: the vehicle-selection-order function of the
objective strategy (design note, section 9) — input order for the two
minimize objectives (each vehicle is exhausted before the next starts),
least-load-first for balance_routes. -/
def pickVehicle (obj : Objective) (vss : List VehState) :
    Option (List VehState × VehState × List VehState) :=
  match obj with
  | .balance_routes => chooseLeastLoad vss
  | _ => chooseFirstActive vss

/-- One step of the Route Builder loop: pick a vehicle; if it has a feasible
delivery, assign the best one, otherwise mark the vehicle exhausted.
Returns none when every vehicle is exhausted. -/
def engineStep (dist : DistFn) (obj : Objective) (depot : Coord)
    (vss : List VehState) (pool : List Delivery) :
    Option (List VehState × List Delivery) :=
  match pickVehicle obj vss with
  | none => none
  | some (pre, vsC, suf) =>
    match selectNext dist obj depot vsC pool with
    | none => some (pre ++ ({ vsC with exhausted := true } : VehState) :: suf, pool)
    | some d => some (pre ++ advance dist vsC d :: suf, pool.erase d)

/-- Fuel-indexed iteration of the builder loop.  Every step either removes a
delivery from the pool or exhausts one vehicle, so fuel of
pool.length + vss.length always reaches the fixpoint. -/
def engineRun (dist : DistFn) (obj : Objective) (depot : Coord) :
    ℕ → List VehState → List Delivery → List VehState × List Delivery
  | 0, vss, pool => (vss, pool)
  | fuel + 1, vss, pool =>
    match engineStep dist obj depot vss pool with
    | none => (vss, pool)
    | some (vss', pool') => engineRun dist obj depot fuel vss' pool'

/-- Modelled from the spec: the full Route Builder pass over the fleet
(section 4.3), producing final vehicle states and the unassigned pool. -/
def optimizeFinal (dist : DistFn) (obj : Objective) (depot : Coord)
    (vehicles : List Vehicle) (deliveries : List Delivery) :
    List VehState × List Delivery :=
  engineRun dist obj depot (deliveries.length + vehicles.length)
    (vehicles.map (initState depot)) deliveries

/-- Modelled from the spec: the Route record of a finished vehicle state,
with the return leg depot-ward added to totals (sections 3 and 4.4). -/
def routeOfState (dist : DistFn) (depot : Coord) (vs : VehState) : Route :=
  match vs.stops with
  | [] =>
    { vehicle_id := vs.veh.id, stops := vs.stops,
      total_distance := 0, total_time := 0, total_load := 0 }
  | _ :: _ =>
    let returnD := dist vs.loc depot
    { vehicle_id := vs.veh.id, stops := vs.stops,
      total_distance := vs.dist + returnD,
      total_time := vs.time + travel_time returnD vs.veh.speed_factor - vs.veh.start_time,
      total_load := vs.load }

/-- OptimizationResult core fields, as in the frontend interface
OptimizationResult (src/frontend/src/lib/api.ts). -/
structure OptResult where
  success : Bool
  routes : List Route
  unassigned_deliveries : List String
  total_distance : ℚ
  total_time : ℚ
deriving DecidableEq

def sumDistances (rs : List Route) : ℚ := (rs.map Route.total_distance).sum

def sumTimes (rs : List Route) : ℚ := (rs.map Route.total_time).sum

/-- Modelled from the spec: the engine boundary — one optimization run
(sections 4.3, 6, 7).  A delivery that cannot be placed is recorded in
unassigned_deliveries; success is false only when all deliveries end up
unassigned. -/
def optimize (dist : DistFn) (obj : Objective) (depot : Coord)
    (vehicles : List Vehicle) (deliveries : List Delivery) : OptResult :=
  let fin := optimizeFinal dist obj depot vehicles deliveries
  let routes := fin.1.map (routeOfState dist depot)
  let unassigned := fin.2.map Delivery.id
  { success := decide (unassigned.length < deliveries.length),
    routes := routes,
    unassigned_deliveries := unassigned,
    total_distance := sumDistances routes,
    total_time := sumTimes routes }

/-- Cost settings, fields as in the frontend interface CostSettings
(src/frontend/src/lib/api.ts). -/
structure CostSettings where
  cost_per_mile : ℚ
  cost_per_hour : ℚ
deriving DecidableEq

/-- Cost summary, fields as in the frontend interface CostSummary
(src/frontend/src/lib/api.ts). -/
structure CostSummary where
  distance_cost : ℚ
  time_cost : ℚ
  total_cost : ℚ
deriving DecidableEq

/-- Kilometers per mile, the rate-conversion constant at the unit boundary. -/
def kmPerMile : ℚ := 1609344 / 1000000

/-- Modelled from the spec: the Cost Summarizer (section 4.6) — internal
distances are kilometers, the configured rate is per mile, so the rate is
converted before multiplying; total_cost = distance_cost + time_cost with
time_cost = (total_time / 60) * cost_per_hour; no rounding before
aggregation. -/
def costSummary (cs : CostSettings) (totalDistanceKm totalTimeMin : ℚ) : CostSummary :=
  let distanceCost := totalDistanceKm * (cs.cost_per_mile / kmPerMile)
  let timeCost := totalTimeMin / 60 * cs.cost_per_hour
  { distance_cost := distanceCost, time_cost := timeCost,
    total_cost := distanceCost + timeCost }

/-- Scenario metrics, fields as in the frontend interface ScenarioMetrics
(src/frontend/src/lib/api.ts). -/
structure ScenarioMetrics where
  total_distance : ℚ
  total_time : ℚ
  vehicle_count : ℕ
  total_cost : Option ℚ
deriving DecidableEq

/-- Savings summary, fields as in the frontend interface SavingsSummary
(src/frontend/src/lib/api.ts). -/
structure SavingsSummary where
  naive_distance : ℚ
  naive_time : ℚ
  optimized_distance : ℚ
  optimized_time : ℚ
  distance_saved : ℚ
  time_saved : ℚ
  distance_saved_percent : ℚ
  time_saved_percent : ℚ
  money_saved : Option ℚ
deriving DecidableEq

/-- Comparison summary scenarios, as in the frontend interface
ComparisonSummary (src/frontend/src/lib/api.ts). -/
structure ComparisonSummary where
  unoptimized : ScenarioMetrics
  single_vehicle : ScenarioMetrics
  multi_vehicle : ScenarioMetrics
deriving DecidableEq

def scenarioCost (cso : Option CostSettings) (d t : ℚ) : Option ℚ :=
  cso.map (fun cs => (costSummary cs d t).total_cost)

/-- Modelled from the spec: the unoptimized scenario (section 4.5) —
deliveries kept in original input order, assigned to a single vehicle
regardless of fleet size, replayed by the Route Simulator. -/
def unoptimizedMetrics (dist : DistFn) (depot : Coord) (vehicles : List Vehicle)
    (deliveries : List Delivery) (cso : Option CostSettings) : ScenarioMetrics :=
  match vehicles with
  | [] => { total_distance := 0, total_time := 0, vehicle_count := 0,
            total_cost := scenarioCost cso 0 0 }
  | v :: _ =>
    let vs := deliveries.foldl (advance dist) (initState depot v)
    let r := routeOfState dist depot vs
    { total_distance := r.total_distance, total_time := r.total_time,
      vehicle_count := 1,
      total_cost := scenarioCost cso r.total_distance r.total_time }

/-- Modelled from the spec: scenario metrics of an engine run (section 4.5);
vehicle_count counts the routes that received at least one stop. -/
def metricsOf (cso : Option CostSettings) (res : OptResult) : ScenarioMetrics :=
  { total_distance := res.total_distance, total_time := res.total_time,
    vehicle_count := res.routes.countP (fun r => !r.stops.isEmpty),
    total_cost := scenarioCost cso res.total_distance res.total_time }

/-- Modelled from the spec: Savings = unoptimized − multi_vehicle, as
absolute differences and as percentages of the unoptimized totals
(section 4.5); the percentage denominators are guarded against zero. -/
def mkSavings (u m : ScenarioMetrics) : SavingsSummary :=
  { naive_distance := u.total_distance, naive_time := u.total_time,
    optimized_distance := m.total_distance, optimized_time := m.total_time,
    distance_saved := u.total_distance - m.total_distance,
    time_saved := u.total_time - m.total_time,
    distance_saved_percent :=
      if u.total_distance = 0 then 0
      else (u.total_distance - m.total_distance) / u.total_distance * 100,
    time_saved_percent :=
      if u.total_time = 0 then 0
      else (u.total_time - m.total_time) / u.total_time * 100,
    money_saved :=
      match u.total_cost, m.total_cost with
      | some a, some b => some (a - b)
      | _, _ => none }

/-- Full optimization response: the core result plus the optional cost
summary and the comparison/savings summaries, as in the frontend interface
OptimizationResult (src/frontend/src/lib/api.ts). -/
structure FullResult where
  base : OptResult
  cost_summary : Option CostSummary
  savings_summary : SavingsSummary
  comparison_summary : ComparisonSummary
deriving DecidableEq

/-- Modelled from the spec: one full optimization run — the engine, the Cost
Summarizer on its totals, and the Scenario Comparator producing the
unoptimized / single_vehicle / multi_vehicle scenarios and the savings
(sections 4.5 and 4.6). -/
def fullOptimize (dist : DistFn) (obj : Objective) (depot : Coord)
    (vehicles : List Vehicle) (deliveries : List Delivery)
    (cso : Option CostSettings) : FullResult :=
  let base := optimize dist obj depot vehicles deliveries
  let unopt := unoptimizedMetrics dist depot vehicles deliveries cso
  let single := metricsOf cso (optimize dist obj depot (vehicles.take 1) deliveries)
  let multi := metricsOf cso base
  { base := base,
    cost_summary := cso.map (fun cs => costSummary cs base.total_distance base.total_time),
    savings_summary := mkSavings unopt multi,
    comparison_summary :=
      { unoptimized := unopt, single_vehicle := single, multi_vehicle := multi } }

/-- Savings line displayed by RoutesList (src/unnamed/part_003, line 248):
kilometers saved = unoptimized total_distance − multi_vehicle
total_distance. -/
def displaySavedKm (cs : ComparisonSummary) : ℚ :=
  cs.unoptimized.total_distance - cs.multi_vehicle.total_distance

/-- Savings percentage displayed by RoutesList (src/unnamed/part_003,
line 249). -/
def displaySavedPercent (cs : ComparisonSummary) : ℚ :=
  (cs.unoptimized.total_distance - cs.multi_vehicle.total_distance) /
    cs.unoptimized.total_distance * 100

/-- Guard of the savings panel in RoutesList (src/unnamed/part_003,
line 116): the panel renders only when a savings summary is present and
distance_saved is positive. -/
def showSavingsPanel (savings : SavingsSummary) : Bool :=
  decide (0 < savings.distance_saved)

/-! Embedding of decodePolyline (src/unnamed/part_002, lines 25-61).
JavaScript 32-bit integer semantics are made explicit: the accumulated
result is kept as an unsigned value below 2^32, shifts are taken modulo 32,
and the final delta is read back through the signed (two's-complement)
view.  charCodeAt past the end of the string yields NaN in JavaScript;
then (NaN and 0x1f) is 0, so the accumulator is unchanged, and NaN >= 0x20
is false, so the inner loop exits; the index is still incremented. -/

def or32 (a b : ℕ) : ℕ := (a ||| b) % 2 ^ 32

def shl32 (x s : ℕ) : ℕ := (x <<< (s % 32)) % 2 ^ 32

/-- Two's-complement signed reading of an unsigned 32-bit value. -/
def toSigned (r : ℕ) : ℤ :=
  if r < 2 ^ 31 then (r : ℤ) else (r : ℤ) - 2 ^ 32

/-- Final step of one decoded chunk (src/unnamed/part_002, lines 42 and 54):
dlat = result and 1 ? not (result >> 1) : result >> 1, with the signed
arithmetic right shift written as floor division by 2 and bitwise
complement written as negation minus one. -/
def deltaOf (r : ℕ) : ℤ :=
  let h := Int.fdiv (toSigned r) 2
  if r % 2 = 1 then -h - 1 else h

/-- Inner do-while loop of decodePolyline (src/unnamed/part_002,
lines 36-40): consumes base-63-offset bytes while the decoded byte is at
least 0x20, accumulating 5-bit chunks; returns the accumulated result and
the number of characters consumed (at least one, also when reading past the
end of the input). -/
def chunkAux : List ℕ → ℕ → ℕ → ℕ × ℕ
  | [], _, result => (result, 1)
  | c :: rest, shift, result =>
    let b : ℤ := (c : ℤ) - 63
    let chunk : ℕ := (b % 32).toNat
    let result' := or32 result (shl32 chunk shift)
    if 32 ≤ b then
      let p := chunkAux rest (shift + 5) result'
      (p.1, p.2 + 1)
    else (result', 1)

theorem chunkAux_snd_pos (rest : List ℕ) (shift result : ℕ) :
    0 < (chunkAux rest shift result).2 := by
  cases rest with
  | nil => simp [chunkAux]
  | cons c rest =>
    simp only [chunkAux]
    split <;> simp

/-- Outer while loop of decodePolyline (src/unnamed/part_002, lines 31-58),
expressed on the suffix of not-yet-consumed character codes: two chunks per
iteration (latitude delta then longitude delta), one coordinate pair pushed
per iteration, looping while characters remain. -/
def polyAux (rest : List ℕ) (lat lng : ℤ) : List (ℚ × ℚ) :=
  if h : rest.isEmpty then []
  else
    let c1 := chunkAux rest 0 0
    let lat' := lat + deltaOf c1.1
    let c2 := chunkAux (rest.drop c1.2) 0 0
    let lng' := lng + deltaOf c2.1
    ((lat' : ℚ) / 100000, (lng' : ℚ) / 100000) ::
      polyAux (rest.drop (c1.2 + c2.2)) lat' lng'
termination_by rest.length
decreasing_by
  have h1 := chunkAux_snd_pos rest 0 0
  have h2 := chunkAux_snd_pos (rest.drop (chunkAux rest 0 0).2) 0 0
  have h0 : 0 < rest.length := by
    cases rest with
    | nil => simp [List.isEmpty] at h
    | cons a l => simp
  simp only [List.length_drop]
  omega

/-- decodePolyline (src/unnamed/part_002, lines 25-61) on the string's
character codes, starting from index 0 with lat = lng = 0. -/
def decodePolyline (encoded : String) : List (ℚ × ℚ) :=
  polyAux (encoded.data.map Char.toNat) 0 0

/-- Road geometry entry, as in the frontend interface RoadGeometry
(src/frontend/src/lib/api.ts): geometry is null on per-route failure. -/
structure RoadGeometry where
  vehicle_id : String
  geometry : Option String
deriving DecidableEq

/-- Response of getRoadGeometries (src/frontend/src/lib/api.ts). -/
structure RoadResponse where
  success : Bool
  geometries : List RoadGeometry
  error : Option String
deriving DecidableEq

/-- React state kept by MapView for road display (src/unnamed/part_002,
lines 69-71). -/
structure RoadState where
  roadGeometries : List RoadGeometry
  roadError : Option String
deriving DecidableEq

/-- Outcome of the getRoadGeometries call: a rejected promise carries an
error message, a resolved one carries the response body. -/
abbrev RoadOutcome := Except String RoadResponse

/-- State update performed by the fetch effect of MapView
(src/unnamed/part_002, lines 146-167): on success the geometries are
stored, on a success=false response or a rejection they are cleared and the
error message recorded. -/
def applyRoadOutcome (outcome : RoadOutcome) : RoadState :=
  match outcome with
  | .error e => { roadGeometries := [], roadError := some e }
  | .ok r =>
    if r.success then { roadGeometries := r.geometries, roadError := none }
    else { roadGeometries := [],
           roadError := some (r.error.getD "Failed to load road routes") }

def isRoadFailure (outcome : RoadOutcome) : Bool :=
  match outcome with
  | .error _ => true
  | .ok r => !r.success

/-- Straight-line fallback path of MapView (src/unnamed/part_002,
lines 223-244): depot, then the stops in sequence, then the depot again. -/
def straightLinePath (depot : Coord) (r : Route) : List (ℚ × ℚ) :=
  (depot.lat, depot.lon) ::
    (r.stops.map (fun s => (s.latitude, s.longitude)) ++ [(depot.lat, depot.lon)])

/-- Polyline drawn for one route by MapView (src/unnamed/part_002,
lines 212-244): the decoded road geometry when one is stored for the
route's vehicle, the straight-line fallback otherwise. -/
def routeDisplayPath (geoms : List RoadGeometry) (depot : Coord) (r : Route) :
    List (ℚ × ℚ) :=
  match (geoms.find? (fun g => g.vehicle_id == r.vehicle_id)).bind
      (fun g => g.geometry) with
  | some enc => decodePolyline enc
  | none => straightLinePath depot r

/-- The whole MapView display step as a pure function of its props and the
fetch outcome: the stored road state, the polyline drawn per route, and the
routes used for markers and metrics — which MapView never mutates. -/
def mapRender (outcome : RoadOutcome) (depot : Coord) (routes : List Route) :
    RoadState × List (List (ℚ × ℚ)) × List Route :=
  let st := applyRoadOutcome outcome
  (st, routes.map (routeDisplayPath st.roadGeometries depot), routes)

/-- Upload response, fields as in the frontend interface UploadResponse
(src/frontend/src/lib/api.ts). -/
structure UploadResponse where
  success : Bool
  deliveries_count : ℕ
  deliveries : List Delivery
deriving DecidableEq

/-- The pieces of the Home component state touched by handleFileSelect
(src/unnamed/part_001, lines 30-43). -/
structure AppState where
  deliveries : List Delivery
  depot : Coord
  optResult : Option FullResult
  selectedRouteIndex : Option ℕ
deriving DecidableEq

/-- Latitude accumulation of handleFileSelect (src/unnamed/part_001,
line 56): reduce((sum, d) => sum + d.latitude, 0). -/
def sumLat (ds : List Delivery) : ℚ := ds.foldl (fun acc d => acc + d.latitude) 0

/-- Longitude accumulation of handleFileSelect (src/unnamed/part_001,
line 57). -/
def sumLon (ds : List Delivery) : ℚ := ds.foldl (fun acc d => acc + d.longitude) 0

/-- State update of handleFileSelect on a successful upload
(src/unnamed/part_001, lines 45-65): store the deliveries, clear the
previous result and route selection, and, when at least one delivery was
uploaded, move the depot to the centroid of the uploaded deliveries. -/
def handleFileSelect (st : AppState) (resp : UploadResponse) : AppState :=
  let st1 : AppState :=
    { st with
      deliveries := resp.deliveries, optResult := none,
      selectedRouteIndex := none }
  if 0 < resp.deliveries.length then
    { st1 with
      depot := { lat := sumLat resp.deliveries / resp.deliveries.length,
                 lon := sumLon resp.deliveries / resp.deliveries.length } }
  else st1

/-- addVehicle of SettingsPanel (src/frontend/src/components/SettingsPanel.tsx,
lines 26-35): appends a fresh default vehicle. -/
def addVehicle (vehicles : List Vehicle) : List Vehicle :=
  vehicles ++ [{ id := "vehicle_" ++ toString (vehicles.length + 1),
                 capacity := some 100, max_stops := none,
                 start_time := 480, end_time := 1080, speed_factor := 1 }]

/-- removeVehicle of SettingsPanel (src/frontend/src/components/SettingsPanel.tsx,
lines 37-41): drops the vehicle at the given index, but only when more than
one vehicle is present. -/
def removeVehicle (vehicles : List Vehicle) (i : ℕ) : List Vehicle :=
  if 1 < vehicles.length then vehicles.eraseIdx i else vehicles

/-- updateVehicle of SettingsPanel (src/frontend/src/components/SettingsPanel.tsx,
lines 43-47): merges updates into the vehicle at the given index. -/
def updateVehicle (vehicles : List Vehicle) (i : ℕ) (f : Vehicle → Vehicle) :
    List Vehicle :=
  vehicles.mapIdx (fun j v => if j = i then f v else v)

/-- A user interaction with the vehicle section of the settings panel. -/
inductive FleetOp
  | add
  | remove (i : ℕ)
  | update (i : ℕ) (f : Vehicle → Vehicle)

def applyFleetOp (vehicles : List Vehicle) : FleetOp → List Vehicle
  | .add => addVehicle vehicles
  | .remove i => removeVehicle vehicles i
  | .update i f => updateVehicle vehicles i f

def applyFleetOps (vehicles : List Vehicle) (ops : List FleetOp) : List Vehicle :=
  ops.foldl applyFleetOp vehicles

/-! Concrete inputs used by witnesses and the counterexample.  The distance
function is the taxicab metric on coordinates; every configuration below
places all points on the equator line lat = 0, where it coincides (up to a
uniform scale factor of about 111 km per degree) with the great-circle
distance of the specification's haversine model. -/

def qabs (x : ℚ) : ℚ := if x < 0 then -x else x

def taxiDist : DistFn := fun a b => qabs (a.lat - b.lat) + qabs (a.lon - b.lon)

def exDepot : Coord := ⟨0, 0⟩

def mkDel (i : String) (lon dem : ℚ) : Delivery :=
  { id := i, latitude := 0, longitude := lon, demand := dem,
    time_window_start := none, time_window_end := none,
    service_time := 5, priority := 3 }

def exVehicle : Vehicle :=
  { id := "v1", capacity := some 100, max_stops := none,
    start_time := 0, end_time := 100000, speed_factor := 1 }

def exCost : CostSettings := { cost_per_mile := 585 / 1000, cost_per_hour := 25 }

/-- A run on which the greedy builder beats the naive baseline: points on
one side of the depot, uploaded in a poor order. -/
def exGood : FullResult :=
  fullOptimize taxiDist .minimize_distance exDepot [exVehicle]
    [mkDel "p" 5 1, mkDel "q" 1 1, mkDel "r" 10 1] (some exCost)

/-- A run on which nearest-neighbor construction is strictly worse than the
naive input order: from the depot the builder greedily takes the two nearby
stops on opposite sides before the far one, crossing the depot region
twice, while the input order happens to visit the far stop first. -/
def exBad : FullResult :=
  fullOptimize taxiDist .minimize_distance exDepot [exVehicle]
    [mkDel "c" 10 1, mkDel "a" 1 1, mkDel "b" (-21 / 20) 1] none

/-- Delivery ids of the stops already placed on a vehicle. -/
def stopIds (vs : VehState) : List String :=
  vs.stops.map (fun s => s.delivery_id)

/-- Multiset of delivery ids routed across a fleet of vehicle states. -/
def routedM : List VehState → Multiset String
  | [] => 0
  | vs :: rest => (stopIds vs : Multiset String) + routedM rest

/-- Multiset of delivery ids still in the unassigned pool. -/
def poolM (pool : List Delivery) : Multiset String :=
  (pool.map Delivery.id : Multiset String)

/-- Delivery ids of the stops of a list of result routes. -/
def routedIdsR : List Route → List String
  | [] => []
  | r :: rest => r.stops.map (fun s => s.delivery_id) ++ routedIdsR rest

theorem routedM_append (l1 l2 : List VehState) :
    routedM (l1 ++ l2) = routedM l1 + routedM l2 := by
  induction l1 with
  | nil => simp [routedM]
  | cons vs l1 ih => simp [routedM, ih, add_assoc]

theorem stopIds_advance (dist : DistFn) (vs : VehState) (d : Delivery) :
    stopIds (advance dist vs d) = stopIds vs ++ [d.id] := by
  simp [stopIds, advance]

theorem routeOfState_stops (dist : DistFn) (depot : Coord) (vs : VehState) :
    (routeOfState dist depot vs).stops = vs.stops := by
  unfold routeOfState
  split <;> rfl

theorem chooseFirstActive_eq : ∀ (vss pre : List VehState) (c : VehState)
    (suf : List VehState), chooseFirstActive vss = some (pre, c, suf) →
    vss = pre ++ c :: suf := by
  intro vss
  induction vss with
  | nil => intro pre c suf h; simp [chooseFirstActive] at h
  | cons vs rest ih =>
    intro pre c suf h
    simp only [chooseFirstActive] at h
    split at h
    · cases hr : chooseFirstActive rest with
      | none => rw [hr] at h; simp at h
      | some p =>
        obtain ⟨p1, p2, p3⟩ := p
        rw [hr] at h
        simp only [Option.some.injEq, Prod.mk.injEq] at h
        obtain ⟨h1, h2, h3⟩ := h
        subst h1 h2 h3
        simp [ih _ _ _ hr]
    · simp only [Option.some.injEq, Prod.mk.injEq] at h
      obtain ⟨h1, h2, h3⟩ := h
      subst h1 h2 h3
      simp

theorem chooseLeastLoad_eq : ∀ (vss pre : List VehState) (c : VehState)
    (suf : List VehState), chooseLeastLoad vss = some (pre, c, suf) →
    vss = pre ++ c :: suf := by
  intro vss
  induction vss with
  | nil => intro pre c suf h; simp [chooseLeastLoad] at h
  | cons vs rest ih =>
    intro pre c suf h
    cases hr : chooseLeastLoad rest with
    | none =>
      simp only [chooseLeastLoad, hr] at h
      by_cases hx : vs.exhausted = true
      · rw [if_pos hx] at h
        exact absurd h (by simp)
      · rw [if_neg hx] at h
        simp only [Option.some.injEq, Prod.mk.injEq] at h
        obtain ⟨h1, h2, h3⟩ := h
        subst h1 h2 h3
        simp
    | some p =>
      obtain ⟨p1, p2, p3⟩ := p
      simp only [chooseLeastLoad, hr] at h
      by_cases hx : vs.exhausted = true
      · rw [if_pos hx] at h
        simp only [Option.some.injEq, Prod.mk.injEq] at h
        obtain ⟨h1, h2, h3⟩ := h
        subst h1 h2 h3
        simp [ih _ _ _ hr]
      · rw [if_neg hx] at h
        by_cases hl : vs.load ≤ p2.load
        · rw [if_pos hl] at h
          simp only [Option.some.injEq, Prod.mk.injEq] at h
          obtain ⟨h1, h2, h3⟩ := h
          subst h1 h2 h3
          simp
        · rw [if_neg hl] at h
          simp only [Option.some.injEq, Prod.mk.injEq] at h
          obtain ⟨h1, h2, h3⟩ := h
          subst h1 h2 h3
          simp [ih _ _ _ hr]

theorem pickVehicle_eq (obj : Objective) (vss pre : List VehState)
    (c : VehState) (suf : List VehState)
    (h : pickVehicle obj vss = some (pre, c, suf)) : vss = pre ++ c :: suf := by
  cases obj with
  | balance_routes => exact chooseLeastLoad_eq vss pre c suf h
  | minimize_distance => exact chooseFirstActive_eq vss pre c suf h
  | minimize_time => exact chooseFirstActive_eq vss pre c suf h

theorem chooseBest_cases (dist : DistFn) (obj : Objective) (depot : Coord)
    (vs : VehState) : ∀ (pool : List Delivery) (best : Option Delivery)
    (d : Delivery), chooseBest dist obj depot vs best pool = some d →
    best = some d ∨ (d ∈ pool ∧ feasible dist depot vs d = true) := by
  intro pool
  induction pool with
  | nil => intro best d h; exact Or.inl h
  | cons e rest ih =>
    intro best d h
    simp only [chooseBest] at h
    split at h
    · rename_i hfeas
      cases best with
      | none =>
        rcases ih _ _ h with h1 | h2
        · injection h1 with h1
          subst h1
          exact Or.inr ⟨List.mem_cons_self e rest, hfeas⟩
        · exact Or.inr ⟨List.mem_cons_of_mem e h2.1, h2.2⟩
      | some b =>
        rcases ih _ _ h with h1 | h2
        · injection h1 with hbd
          by_cases hib : isBetter dist obj vs e b = true
          · rw [if_pos hib] at hbd
            subst hbd
            exact Or.inr ⟨List.mem_cons_self e rest, hfeas⟩
          · rw [if_neg hib] at hbd
            subst hbd
            exact Or.inl rfl
        · exact Or.inr ⟨List.mem_cons_of_mem e h2.1, h2.2⟩
    · rcases ih _ _ h with h1 | h2
      · exact Or.inl h1
      · exact Or.inr ⟨List.mem_cons_of_mem e h2.1, h2.2⟩

theorem selectNext_spec (dist : DistFn) (obj : Objective) (depot : Coord)
    (vs : VehState) (pool : List Delivery) (d : Delivery)
    (h : selectNext dist obj depot vs pool = some d) :
    d ∈ pool ∧ feasible dist depot vs d = true := by
  rcases chooseBest_cases dist obj depot vs pool none d h with h1 | h2
  · simp at h1
  · exact h2

theorem feasible_cap (dist : DistFn) (depot : Coord) (vs : VehState)
    (d : Delivery) (c : ℚ) (h : feasible dist depot vs d = true)
    (hc : vs.veh.capacity = some c) : vs.load + d.demand ≤ c := by
  simp only [feasible, hc, Bool.and_eq_true, decide_eq_true_eq] at h
  exact h.1.1.1

/-- Capacity check of one vehicle state: every placed stop's cumulative
load is within the vehicle's capacity, when one is set. -/
def capOkB (vs : VehState) : Bool :=
  match vs.veh.capacity with
  | none => true
  | some c => vs.stops.all (fun s => decide (s.cumulative_load ≤ c))

theorem capOkB_advance (dist : DistFn) (depot : Coord) (vs : VehState)
    (d : Delivery) (hfeas : feasible dist depot vs d = true)
    (hok : capOkB vs = true) : capOkB (advance dist vs d) = true := by
  unfold capOkB at hok ⊢
  cases hc : vs.veh.capacity with
  | none => simp [advance, hc]
  | some c =>
    rw [hc] at hok
    simp only [advance, hc, List.all_append, List.all_cons, List.all_nil,
      Bool.and_eq_true, decide_eq_true_eq]
    exact ⟨hok, feasible_cap dist depot vs d c hfeas hc, trivial⟩

theorem engineStep_partition (dist : DistFn) (obj : Objective) (depot : Coord)
    (vss vss' : List VehState) (pool pool' : List Delivery)
    (h : engineStep dist obj depot vss pool = some (vss', pool')) :
    routedM vss' + poolM pool' = routedM vss + poolM pool := by
  cases hp : pickVehicle obj vss with
  | none => simp [engineStep, hp] at h
  | some trip =>
    obtain ⟨pre, vsC, suf⟩ := trip
    have hsplit := pickVehicle_eq obj vss pre vsC suf hp
    cases hs : selectNext dist obj depot vsC pool with
    | none =>
      simp only [engineStep, hp, hs, Option.some.injEq, Prod.mk.injEq] at h
      obtain ⟨h1, h2⟩ := h
      subst h1 h2
      subst hsplit
      simp [routedM_append, routedM, stopIds]
    | some d =>
      simp only [engineStep, hp, hs, Option.some.injEq, Prod.mk.injEq] at h
      obtain ⟨h1, h2⟩ := h
      subst h1 h2
      subst hsplit
      have hd : d ∈ pool := (selectNext_spec dist obj depot vsC pool d hs).1
      have hpool : poolM pool = d.id ::ₘ poolM (pool.erase d) := by
        have hperm : List.Perm (pool.map Delivery.id)
            (d.id :: (pool.erase d).map Delivery.id) :=
          (List.perm_cons_erase hd).map Delivery.id
        unfold poolM
        rw [Multiset.coe_eq_coe.mpr hperm]
        rfl
      rw [hpool]
      have hcoe : ((stopIds vsC ++ [d.id] : List String) : Multiset String) =
          (stopIds vsC : Multiset String) + {d.id} := by
        rw [← Multiset.coe_add, Multiset.coe_singleton]
      simp only [routedM_append, routedM, stopIds_advance, hcoe,
        ← Multiset.singleton_add]
      abel

theorem engineRun_partition (dist : DistFn) (obj : Objective) (depot : Coord) :
    ∀ (fuel : ℕ) (vss : List VehState) (pool : List Delivery),
    routedM (engineRun dist obj depot fuel vss pool).1 +
      poolM (engineRun dist obj depot fuel vss pool).2 =
      routedM vss + poolM pool := by
  intro fuel
  induction fuel with
  | zero => intro vss pool; rfl
  | succ n ih =>
    intro vss pool
    cases h : engineStep dist obj depot vss pool with
    | none => simp [engineRun, h]
    | some p =>
      obtain ⟨vss', pool'⟩ := p
      have step := engineStep_partition dist obj depot vss vss' pool pool' h
      calc routedM (engineRun dist obj depot (n + 1) vss pool).1 +
            poolM (engineRun dist obj depot (n + 1) vss pool).2
          = routedM (engineRun dist obj depot n vss' pool').1 +
            poolM (engineRun dist obj depot n vss' pool').2 := by
            simp [engineRun, h]
        _ = routedM vss' + poolM pool' := ih vss' pool'
        _ = routedM vss + poolM pool := step

theorem capOkB_mark (vs : VehState) :
    capOkB ({ vs with exhausted := true } : VehState) = capOkB vs := rfl

theorem capOkB_init (depot : Coord) (v : Vehicle) :
    capOkB (initState depot v) = true := by
  unfold capOkB initState
  cases v.capacity <;> simp

theorem engineStep_capOk (dist : DistFn) (obj : Objective) (depot : Coord)
    (vss vss' : List VehState) (pool pool' : List Delivery)
    (h : engineStep dist obj depot vss pool = some (vss', pool'))
    (hall : vss.all capOkB = true) : vss'.all capOkB = true := by
  cases hp : pickVehicle obj vss with
  | none => simp [engineStep, hp] at h
  | some trip =>
    obtain ⟨pre, vsC, suf⟩ := trip
    have hsplit := pickVehicle_eq obj vss pre vsC suf hp
    subst hsplit
    simp only [List.all_append, List.all_cons, Bool.and_eq_true] at hall
    cases hs : selectNext dist obj depot vsC pool with
    | none =>
      simp only [engineStep, hp, hs, Option.some.injEq, Prod.mk.injEq] at h
      obtain ⟨h1, h2⟩ := h
      subst h1
      simp only [List.all_append, List.all_cons, Bool.and_eq_true, capOkB_mark]
      exact hall
    | some d =>
      simp only [engineStep, hp, hs, Option.some.injEq, Prod.mk.injEq] at h
      obtain ⟨h1, h2⟩ := h
      subst h1
      have hfeas := (selectNext_spec dist obj depot vsC pool d hs).2
      simp only [List.all_append, List.all_cons, Bool.and_eq_true]
      exact ⟨hall.1, capOkB_advance dist depot vsC d hfeas hall.2.1, hall.2.2⟩

theorem engineRun_capOk (dist : DistFn) (obj : Objective) (depot : Coord) :
    ∀ (fuel : ℕ) (vss : List VehState) (pool : List Delivery),
    vss.all capOkB = true →
    (engineRun dist obj depot fuel vss pool).1.all capOkB = true := by
  intro fuel
  induction fuel with
  | zero => intro vss pool hall; exact hall
  | succ n ih =>
    intro vss pool hall
    cases h : engineStep dist obj depot vss pool with
    | none => simpa [engineRun, h] using hall
    | some p =>
      obtain ⟨vss', pool'⟩ := p
      have step := engineStep_capOk dist obj depot vss vss' pool pool' h hall
      have : (engineRun dist obj depot (n + 1) vss pool).1 =
          (engineRun dist obj depot n vss' pool').1 := by
        simp [engineRun, h]
      rw [this]
      exact ih vss' pool' step

theorem routedM_init (depot : Coord) (vehicles : List Vehicle) :
    routedM (vehicles.map (initState depot)) = 0 := by
  induction vehicles with
  | nil => rfl
  | cons v rest ih => simp [routedM, initState, stopIds, ih]

theorem routedIdsR_coe (dist : DistFn) (depot : Coord) :
    ∀ (vss : List VehState),
    (routedIdsR (vss.map (routeOfState dist depot)) : Multiset String) =
      routedM vss := by
  intro vss
  induction vss with
  | nil => rfl
  | cons vs rest ih =>
    simp only [List.map_cons, routedIdsR, routedM]
    rw [← Multiset.coe_add]
    rw [routeOfState_stops]
    rw [ih]
    rfl

theorem optimize_partition_aux (dist : DistFn) (obj : Objective) (depot : Coord)
    (vehicles : List Vehicle) (deliveries : List Delivery) :
    (routedIdsR (optimize dist obj depot vehicles deliveries).routes :
        Multiset String) +
      ((optimize dist obj depot vehicles deliveries).unassigned_deliveries :
        Multiset String) =
      (deliveries.map Delivery.id : Multiset String) := by
  have hrun := engineRun_partition dist obj depot
    (deliveries.length + vehicles.length) (vehicles.map (initState depot))
    deliveries
  rw [routedM_init, zero_add] at hrun
  show (routedIdsR ((optimizeFinal dist obj depot vehicles deliveries).1.map
      (routeOfState dist depot)) : Multiset String) +
    ((optimizeFinal dist obj depot vehicles deliveries).2.map Delivery.id :
      Multiset String) = (deliveries.map Delivery.id : Multiset String)
  rw [routedIdsR_coe]
  exact hrun

/-- C1: every optimization run partitions the input delivery ids between
the routes' stops and the unassigned list — counted with multiplicity, the
routed ids together with the unassigned ids are exactly the input ids, so
with unique input ids each appears in exactly one place, never both and
never neither. -/
theorem optimize_partition (dist : DistFn) (obj : Objective) (depot : Coord)
    (vehicles : List Vehicle) (deliveries : List Delivery) :
    (routedIdsR (optimize dist obj depot vehicles deliveries).routes :
        Multiset String) +
      ((optimize dist obj depot vehicles deliveries).unassigned_deliveries :
        Multiset String) =
      (deliveries.map Delivery.id : Multiset String) :=
  optimize_partition_aux dist obj depot vehicles deliveries

/-- C2: for every route built for a vehicle with a set capacity, the
cumulative load recorded at every stop is at most that capacity — the
feasibility checker never admits a delivery whose demand would push the
running load over the limit. -/
theorem capacity_invariant (dist : DistFn) (obj : Objective) (depot : Coord)
    (vehicles : List Vehicle) (deliveries : List Delivery) :
    ((optimizeFinal dist obj depot vehicles deliveries).1).all
      (fun vs =>
        match vs.veh.capacity with
        | none => true
        | some c => ((routeOfState dist depot vs).stops).all
            (fun s => decide (s.cumulative_load ≤ c))) = true := by
  have hinit : (vehicles.map (initState depot)).all capOkB = true := by
    induction vehicles with
    | nil => rfl
    | cons v rest ih => simp [capOkB_init, ih]
  have hrun := engineRun_capOk dist obj depot
    (deliveries.length + vehicles.length) (vehicles.map (initState depot))
    deliveries hinit
  have hcong : ∀ vs : VehState,
      (match vs.veh.capacity with
        | none => true
        | some c => ((routeOfState dist depot vs).stops).all
            (fun s => decide (s.cumulative_load ≤ c))) = capOkB vs := by
    intro vs
    rw [routeOfState_stops]
    rfl
  have hall_eq : ∀ (l : List VehState),
      l.all (fun vs =>
        match vs.veh.capacity with
        | none => true
        | some c => ((routeOfState dist depot vs).stops).all
            (fun s => decide (s.cumulative_load ≤ c))) = l.all capOkB := by
    intro l
    induction l with
    | nil => rfl
    | cons x xs ih => simp only [List.all_cons, hcong x, ih]
  rw [hall_eq]
  exact hrun

theorem optimize_success_eq (dist : DistFn) (obj : Objective) (depot : Coord)
    (vehicles : List Vehicle) (deliveries : List Delivery) :
    (optimize dist obj depot vehicles deliveries).success =
      decide ((optimize dist obj depot vehicles
        deliveries).unassigned_deliveries.length < deliveries.length) := rfl

/-- C3: the success flag is true exactly when at least one input delivery
was placed on some route; deliveries that cannot be placed are recorded in
unassigned_deliveries instead of raising an error, and success is false
exactly when every input delivery ends up unassigned. -/
theorem success_iff_some_routed (dist : DistFn) (obj : Objective)
    (depot : Coord) (vehicles : List Vehicle) (deliveries : List Delivery) :
    (optimize dist obj depot vehicles deliveries).success = true ↔
      ∃ d ∈ deliveries,
        d.id ∈ routedIdsR (optimize dist obj depot vehicles deliveries).routes := by
  have hpart := optimize_partition_aux dist obj depot vehicles deliveries
  have hcard : (routedIdsR (optimize dist obj depot vehicles
        deliveries).routes).length +
      (optimize dist obj depot vehicles deliveries).unassigned_deliveries.length =
      deliveries.length := by
    have hc := congrArg Multiset.card hpart
    simpa [Multiset.coe_card] using hc
  rw [optimize_success_eq, decide_eq_true_eq]
  constructor
  · intro hlt
    have hpos : 0 < (routedIdsR (optimize dist obj depot vehicles
        deliveries).routes).length := by omega
    obtain ⟨x, hx⟩ := List.exists_mem_of_length_pos hpos
    have hxin : x ∈ (deliveries.map Delivery.id : Multiset String) := by
      rw [← hpart]
      exact Multiset.mem_add.mpr (Or.inl (Multiset.mem_coe.mpr hx))
    rw [Multiset.mem_coe] at hxin
    obtain ⟨d, hd, hdx⟩ := List.mem_map.mp hxin
    exact ⟨d, hd, by rw [hdx]; exact hx⟩
  · intro ⟨d, _, hmem⟩
    have hne : routedIdsR (optimize dist obj depot vehicles deliveries).routes ≠ [] :=
      List.ne_nil_of_mem hmem
    have hpos : 0 < (routedIdsR (optimize dist obj depot vehicles
        deliveries).routes).length := List.length_pos.mpr hne
    omega

theorem sumLat_eq_sum (ds : List Delivery) :
    sumLat ds = (ds.map (fun d => d.latitude)).sum := by
  have key : ∀ (l : List Delivery) (a : ℚ),
      l.foldl (fun acc d => acc + d.latitude) a = a + (l.map (fun d => d.latitude)).sum := by
    intro l
    induction l with
    | nil => intro a; simp
    | cons d l ih => intro a; simp [ih, add_assoc]
  simpa using key ds 0

theorem sumLon_eq_sum (ds : List Delivery) :
    sumLon ds = (ds.map (fun d => d.longitude)).sum := by
  have key : ∀ (l : List Delivery) (a : ℚ),
      l.foldl (fun acc d => acc + d.longitude) a = a + (l.map (fun d => d.longitude)).sum := by
    intro l
    induction l with
    | nil => intro a; simp
    | cons d l ih => intro a; simp [ih, add_assoc]
  simpa using key ds 0

/-- C4: the reported savings equal the unoptimized scenario's totals minus
the multi_vehicle scenario's totals, as absolute differences for distance,
time and cost, and as percentages of the unoptimized totals whenever those
are positive; the savings line that RoutesList displays agrees with the
savings summary. -/
theorem savings_eq_unopt_minus_multi (dist : DistFn) (obj : Objective)
    (depot : Coord) (vehicles : List Vehicle) (deliveries : List Delivery)
    (cso : Option CostSettings) :
    let F := fullOptimize dist obj depot vehicles deliveries cso
    F.savings_summary.distance_saved =
        F.comparison_summary.unoptimized.total_distance -
          F.comparison_summary.multi_vehicle.total_distance ∧
    F.savings_summary.time_saved =
        F.comparison_summary.unoptimized.total_time -
          F.comparison_summary.multi_vehicle.total_time ∧
    (0 < F.comparison_summary.unoptimized.total_distance →
      F.savings_summary.distance_saved_percent =
        (F.comparison_summary.unoptimized.total_distance -
            F.comparison_summary.multi_vehicle.total_distance) /
          F.comparison_summary.unoptimized.total_distance * 100) ∧
    (0 < F.comparison_summary.unoptimized.total_time →
      F.savings_summary.time_saved_percent =
        (F.comparison_summary.unoptimized.total_time -
            F.comparison_summary.multi_vehicle.total_time) /
          F.comparison_summary.unoptimized.total_time * 100) ∧
    (∀ a b : ℚ, F.comparison_summary.unoptimized.total_cost = some a →
      F.comparison_summary.multi_vehicle.total_cost = some b →
      F.savings_summary.money_saved = some (a - b)) ∧
    displaySavedKm F.comparison_summary = F.savings_summary.distance_saved ∧
    (0 < F.comparison_summary.unoptimized.total_distance →
      displaySavedPercent F.comparison_summary =
        F.savings_summary.distance_saved_percent) := by
  intro F
  refine ⟨rfl, rfl, ?_, ?_, ?_, rfl, ?_⟩
  · intro hpos
    show (if F.comparison_summary.unoptimized.total_distance = 0 then 0
      else (F.comparison_summary.unoptimized.total_distance -
          F.comparison_summary.multi_vehicle.total_distance) /
        F.comparison_summary.unoptimized.total_distance * 100) = _
    rw [if_neg (ne_of_gt hpos)]
  · intro hpos
    show (if F.comparison_summary.unoptimized.total_time = 0 then 0
      else (F.comparison_summary.unoptimized.total_time -
          F.comparison_summary.multi_vehicle.total_time) /
        F.comparison_summary.unoptimized.total_time * 100) = _
    rw [if_neg (ne_of_gt hpos)]
  · intro a b ha hb
    show (match F.comparison_summary.unoptimized.total_cost,
        F.comparison_summary.multi_vehicle.total_cost with
      | some a, some b => some (a - b)
      | _, _ => none) = some (a - b)
    rw [ha, hb]
  · intro hpos
    show displaySavedPercent F.comparison_summary =
      (if F.comparison_summary.unoptimized.total_distance = 0 then 0
        else (F.comparison_summary.unoptimized.total_distance -
            F.comparison_summary.multi_vehicle.total_distance) /
          F.comparison_summary.unoptimized.total_distance * 100)
    rw [if_neg (ne_of_gt hpos)]
    rfl

theorem exGood_unopt_distance_pos :
    0 < exGood.comparison_summary.unoptimized.total_distance := by
  norm_num [exGood, fullOptimize, optimize, optimizeFinal, unoptimizedMetrics,
    metricsOf, engineRun, engineStep, pickVehicle, chooseFirstActive,
    selectNext, chooseBest, feasible, advance, initState, routeOfState,
    travel_time, baseSpeed, taxiDist, qabs, mkDel, exDepot, exVehicle, exCost,
    selectionScore, isBetter, mkSavings, scenarioCost, costSummary, kmPerMile,
    sumDistances, sumTimes, Delivery.coord, List.erase]

theorem savings_eq_unopt_minus_multi_witness :
    (0 < exGood.comparison_summary.unoptimized.total_distance) ∧
    exGood.savings_summary.distance_saved_percent =
      (exGood.comparison_summary.unoptimized.total_distance -
          exGood.comparison_summary.multi_vehicle.total_distance) /
        exGood.comparison_summary.unoptimized.total_distance * 100 :=
  ⟨exGood_unopt_distance_pos,
    (savings_eq_unopt_minus_multi taxiDist .minimize_distance exDepot
      [exVehicle] [mkDel "p" 5 1, mkDel "q" 1 1, mkDel "r" 10 1]
      (some exCost)).2.2.1 exGood_unopt_distance_pos⟩

/-- C5 counterexample: a concrete run on which the greedy nearest-feasible
construction is strictly worse than the naive input-order baseline on both
total distance and total time, although both scenarios route all three
deliveries — the depot sits between two nearby stops with a far stop on one
side, so the builder crosses back over the depot region before the long
leg, while the input order happens to take the far stop first. -/
theorem savings_nonneg_counterexample :
    exBad.base.unassigned_deliveries = [] ∧
    exBad.comparison_summary.unoptimized.total_distance <
      exBad.comparison_summary.multi_vehicle.total_distance ∧
    exBad.comparison_summary.unoptimized.total_time <
      exBad.comparison_summary.multi_vehicle.total_time := by
  refine ⟨?_, ?_, ?_⟩ <;>
    norm_num [exBad, fullOptimize, optimize, optimizeFinal, unoptimizedMetrics,
      metricsOf, engineRun, engineStep, pickVehicle, chooseFirstActive,
      selectNext, chooseBest, feasible, advance, initState, routeOfState,
      travel_time, baseSpeed, taxiDist, qabs, mkDel, exDepot, exVehicle,
      selectionScore, isBetter, mkSavings, scenarioCost, sumDistances,
      sumTimes, Delivery.coord, List.erase]

/-- C5 amended: savings are not guaranteed non-negative — the greedy result
can be worse than the naive baseline — but whenever the savings panel is
displayed (RoutesList guards it on distance_saved being positive), the
multi_vehicle total distance is strictly below the unoptimized one. -/
theorem savings_panel_implies_improvement (dist : DistFn) (obj : Objective)
    (depot : Coord) (vehicles : List Vehicle) (deliveries : List Delivery)
    (cso : Option CostSettings)
    (h : showSavingsPanel
      (fullOptimize dist obj depot vehicles deliveries cso).savings_summary = true) :
    (fullOptimize dist obj depot vehicles
        deliveries cso).comparison_summary.multi_vehicle.total_distance <
      (fullOptimize dist obj depot vehicles
        deliveries cso).comparison_summary.unoptimized.total_distance := by
  have h' : 0 < (fullOptimize dist obj depot vehicles
      deliveries cso).savings_summary.distance_saved := of_decide_eq_true h
  have heq : (fullOptimize dist obj depot vehicles
      deliveries cso).savings_summary.distance_saved =
      (fullOptimize dist obj depot vehicles
        deliveries cso).comparison_summary.unoptimized.total_distance -
      (fullOptimize dist obj depot vehicles
        deliveries cso).comparison_summary.multi_vehicle.total_distance := rfl
  rw [heq] at h'
  exact sub_pos.mp h'

theorem exGood_panel_shown : showSavingsPanel exGood.savings_summary = true := by
  norm_num [showSavingsPanel, exGood, fullOptimize, optimize, optimizeFinal,
    unoptimizedMetrics, metricsOf, engineRun, engineStep, pickVehicle,
    chooseFirstActive, selectNext, chooseBest, feasible, advance, initState,
    routeOfState, travel_time, baseSpeed, taxiDist, qabs, mkDel, exDepot,
    exVehicle, exCost, selectionScore, isBetter, mkSavings, scenarioCost,
    costSummary, kmPerMile, sumDistances, sumTimes, Delivery.coord, List.erase]

theorem savings_panel_implies_improvement_witness :
    showSavingsPanel exGood.savings_summary = true ∧
    exGood.comparison_summary.multi_vehicle.total_distance <
      exGood.comparison_summary.unoptimized.total_distance :=
  ⟨exGood_panel_shown,
    savings_panel_implies_improvement taxiDist .minimize_distance exDepot
      [exVehicle] [mkDel "p" 5 1, mkDel "q" 1 1, mkDel "r" 10 1]
      (some exCost) exGood_panel_shown⟩

/-- C7: when cost settings are supplied, the cost summary satisfies
total_cost = distance_cost + time_cost with distance_cost the kilometer
total times the per-mile rate converted to a per-kilometer rate, and
time_cost = (total_time / 60) * cost_per_hour, with no rounding before
aggregation. -/
theorem cost_summary_spec (dist : DistFn) (obj : Objective) (depot : Coord)
    (vehicles : List Vehicle) (deliveries : List Delivery)
    (cso : Option CostSettings) (cs : CostSettings) (h : cso = some cs) :
    ∃ s, (fullOptimize dist obj depot vehicles deliveries cso).cost_summary = some s ∧
      s.total_cost = s.distance_cost + s.time_cost ∧
      s.distance_cost =
        (fullOptimize dist obj depot vehicles deliveries cso).base.total_distance *
          (cs.cost_per_mile / kmPerMile) ∧
      s.time_cost =
        (fullOptimize dist obj depot vehicles deliveries cso).base.total_time /
          60 * cs.cost_per_hour := by
  subst h
  exact ⟨_, rfl, rfl, rfl, rfl⟩

theorem cost_summary_spec_witness :
    ((some exCost : Option CostSettings) = some exCost) ∧
    ∃ s, exGood.cost_summary = some s ∧
      s.total_cost = s.distance_cost + s.time_cost ∧
      s.distance_cost = exGood.base.total_distance * (exCost.cost_per_mile / kmPerMile) ∧
      s.time_cost = exGood.base.total_time / 60 * exCost.cost_per_hour :=
  ⟨rfl,
    cost_summary_spec taxiDist .minimize_distance exDepot [exVehicle]
      [mkDel "p" 5 1, mkDel "q" 1 1, mkDel "r" 10 1] (some exCost) exCost rfl⟩

/-- C8: decodePolyline terminates on every input string, well-formed or not,
because every iteration of its outer loop advances the character index by at
least two (one per inner do-while pass, which also exits when charCodeAt
reads past the end); consequently the returned list holds at most
the-ceiling-of-half-the-length coordinate pairs. -/
theorem decodePolyline_length_bound (encoded : String) :
    2 * (decodePolyline encoded).length ≤ encoded.length + 1 := by
  have main : ∀ (n : ℕ) (rest : List ℕ) (lat lng : ℤ), rest.length ≤ n →
      2 * (polyAux rest lat lng).length ≤ rest.length + 1 := by
    intro n
    induction n with
    | zero =>
      intro rest lat lng hn
      have hrest : rest = [] := List.eq_nil_of_length_eq_zero (Nat.le_zero.mp hn)
      subst hrest
      rw [polyAux]
      simp
    | succ n ih =>
      intro rest lat lng hn
      rw [polyAux]
      by_cases he : rest.isEmpty
      · simp [he]
      · have h0 : 0 < rest.length := by
          cases rest with
          | nil => simp at he
          | cons a l => simp
        have h1 := chunkAux_snd_pos rest 0 0
        have h2 := chunkAux_snd_pos (rest.drop (chunkAux rest 0 0).2) 0 0
        have hrec := ih
          (rest.drop ((chunkAux rest 0 0).2 +
            (chunkAux (rest.drop (chunkAux rest 0 0).2) 0 0).2))
          (lat + deltaOf (chunkAux rest 0 0).1)
          (lng + deltaOf (chunkAux (rest.drop (chunkAux rest 0 0).2) 0 0).1)
          (by simp only [List.length_drop]; omega)
        rw [dif_neg he]
        simp only [List.length_cons, List.length_drop] at hrec ⊢
        omega
  have hlen : (encoded.data.map Char.toNat).length = encoded.length := by
    rw [List.length_map]
    rfl
  calc 2 * (decodePolyline encoded).length
      ≤ (encoded.data.map Char.toNat).length + 1 :=
        main (encoded.data.map Char.toNat).length _ 0 0 le_rfl
    _ = encoded.length + 1 := by rw [hlen]

/-- C6: a failed road-geometry fetch never alters the optimization output —
the stored geometries are cleared, every route falls back to the
straight-line depot-stops-depot path, and the Route objects used for
rendering are exactly the ones passed in. -/
theorem roadFailure_fallback (outcome : RoadOutcome) (depot : Coord)
    (routes : List Route) (h : isRoadFailure outcome = true) :
    (mapRender outcome depot routes).1.roadGeometries = [] ∧
    (mapRender outcome depot routes).2.1 = routes.map (straightLinePath depot) ∧
    (mapRender outcome depot routes).2.2 = routes := by
  have hstate : (applyRoadOutcome outcome).roadGeometries = [] := by
    cases outcome with
    | error e => rfl
    | ok r =>
      simp only [isRoadFailure, Bool.not_eq_true'] at h
      simp [applyRoadOutcome, h]
  refine ⟨hstate, ?_, rfl⟩
  simp only [mapRender, hstate]
  refine List.map_congr_left (fun r _ => ?_)
  rfl

theorem roadFailure_fallback_witness :
    isRoadFailure (Except.error "network timeout") = true ∧
    ((mapRender (Except.error "network timeout") exDepot
        (exGood.base.routes)).1.roadGeometries = [] ∧
      (mapRender (Except.error "network timeout") exDepot
        (exGood.base.routes)).2.1 =
          (exGood.base.routes).map (straightLinePath exDepot) ∧
      (mapRender (Except.error "network timeout") exDepot
        (exGood.base.routes)).2.2 = exGood.base.routes) :=
  ⟨rfl, roadFailure_fallback (Except.error "network timeout") exDepot
    exGood.base.routes rfl⟩

/-- C9: after a successful CSV upload yielding at least one delivery, the
depot moves to the centroid (arithmetic mean latitude and longitude) of the
uploaded deliveries and the previous optimization result and route
selection are cleared; an upload yielding zero deliveries leaves the depot
unchanged. -/
theorem handleFileSelect_spec (st : AppState) (resp : UploadResponse) :
    (resp.deliveries ≠ [] →
      (handleFileSelect st resp).depot.lat =
          (resp.deliveries.map (fun d => d.latitude)).sum / resp.deliveries.length ∧
      (handleFileSelect st resp).depot.lon =
          (resp.deliveries.map (fun d => d.longitude)).sum / resp.deliveries.length ∧
      (handleFileSelect st resp).optResult = none ∧
      (handleFileSelect st resp).selectedRouteIndex = none ∧
      (handleFileSelect st resp).deliveries = resp.deliveries) ∧
    (resp.deliveries = [] → (handleFileSelect st resp).depot = st.depot) := by
  constructor
  · intro hne
    have hpos : 0 < resp.deliveries.length := List.length_pos.mpr hne
    simp [handleFileSelect, hpos, sumLat_eq_sum, sumLon_eq_sum]
  · intro hnil
    simp [handleFileSelect, hnil]

theorem handleFileSelect_spec_witness :
    ([mkDel "p" 4 1, mkDel "q" 2 1] ≠ [] ∧
      (handleFileSelect
          ⟨[], exDepot, none, some 3⟩
          ⟨true, 2, [mkDel "p" 4 1, mkDel "q" 2 1]⟩).depot.lat =
        (([mkDel "p" 4 1, mkDel "q" 2 1].map (fun d => d.latitude)).sum) /
          ([mkDel "p" 4 1, mkDel "q" 2 1].length)) ∧
    (handleFileSelect ⟨[mkDel "p" 4 1], exDepot, none, some 3⟩
        ⟨true, 0, []⟩).depot = exDepot :=
  ⟨⟨by decide,
    ((handleFileSelect_spec ⟨[], exDepot, none, some 3⟩
        ⟨true, 2, [mkDel "p" 4 1, mkDel "q" 2 1]⟩).1 (by decide)).1⟩,
    (handleFileSelect_spec ⟨[mkDel "p" 4 1], exDepot, none, some 3⟩
        ⟨true, 0, []⟩).2 rfl⟩

theorem applyFleetOp_ne_nil (vehicles : List Vehicle) (op : FleetOp)
    (h : vehicles ≠ []) : applyFleetOp vehicles op ≠ [] := by
  cases op with
  | add =>
    simp [applyFleetOp, addVehicle]
  | remove i =>
    simp only [applyFleetOp, removeVehicle]
    split
    · rename_i hlen
      exact List.eraseIdx_ne_nil.mpr (Or.inl hlen)
    · exact h
  | update i f =>
    simp only [applyFleetOp, updateVehicle]
    intro hc
    have : vehicles.length = 0 := by
      have := congrArg List.length hc
      simpa using this
    exact h (List.eq_nil_of_length_eq_zero this)

/-- C10: the settings panel never produces an empty fleet — removeVehicle
only removes a vehicle when more than one is present and is the identity
otherwise, so any sequence of add/remove/update operations starting from a
non-empty vehicle list keeps the list non-empty. -/
theorem fleet_stays_nonempty (vehicles : List Vehicle) (ops : List FleetOp) :
    (∀ i, vehicles.length ≤ 1 → removeVehicle vehicles i = vehicles) ∧
    (vehicles ≠ [] → applyFleetOps vehicles ops ≠ []) := by
  constructor
  · intro i hle
    simp only [removeVehicle]
    split
    · rename_i hgt; omega
    · rfl
  · intro hne
    induction ops generalizing vehicles with
    | nil => exact hne
    | cons op rest ih =>
      exact ih (applyFleetOp vehicles op) (applyFleetOp_ne_nil vehicles op hne)

theorem fleet_stays_nonempty_witness :
    ([exVehicle, exVehicle] : List Vehicle) ≠ [] ∧
    applyFleetOps [exVehicle, exVehicle]
      [FleetOp.remove 0, FleetOp.remove 0, FleetOp.remove 5,
        FleetOp.add, FleetOp.update 0 (fun v => { v with capacity := some 50 })] ≠ [] :=
  ⟨by decide,
    (fleet_stays_nonempty [exVehicle, exVehicle]
      [FleetOp.remove 0, FleetOp.remove 0, FleetOp.remove 5,
        FleetOp.add, FleetOp.update 0 (fun v => { v with capacity := some 50 })]).2
      (by decide)⟩

end RouteOpt
